import Mathlib

/-!
Verification of the front-end gateway process `ServerMain.cpp` (rserver).

The development shallowly embeds the three cores of the source file:

* the handler-adaptation layer (`secureAsyncFileHandler` and the
  `FileRequestHandler::handleRequest` functor it is built from);
* the signal-driven lifecycle loop (`waitForSignals`), modelled as a step
  function on delivered signal numbers plus a loop over a list of signals;
* the bootstrap sequence of `main`, modelled as a function from the
  configured options and the outcomes of the external collaborator calls
  (daemonize, R-environment detection, module initialisation, privilege
  drop, ...) to the process outcome, an event trace recording which
  bootstrap actions executed in order, and the final privilege state.

External collaborators whose implementations are outside this file's source
(e.g. `gwt::fileHandlerFunction`, `core::system::temporarilyDropPriv`) are
either taken as parameters or modelled from the spec, as noted at each
definition.
-/

namespace ServerMain

/-- Result of a fallible external call (`core::Error`): `ok` means no error,
`err` means the call returned an error. -/
inductive Res where
  | ok : Res
  | err : Res
  deriving DecidableEq

/-- `EXIT_SUCCESS`. -/
def EXIT_SUCCESS : Nat := 0

/-- `EXIT_FAILURE` (also the status produced by `core::system::exitFailure`). -/
def EXIT_FAILURE : Nat := 1

/-! ## Handler adaptation layer (`secureAsyncFileHandler`) -/

/-- An HTTP request, kept abstract: only its identity matters here. -/
structure Request where
  uri : String
  body : String
  deriving DecidableEq

/-- An HTTP response buffer. -/
structure Response where
  statusCode : Nat
  body : String
  deriving DecidableEq

/-- `http::UriHandlerFunction`: a synchronous handler that populates the
response from the request.  The C++ handler mutates the response in place;
here it returns the new response value. -/
def UriHandlerFunction : Type := Request → Response → Response

/-- The part of `http::AsyncConnection` visible to the adapter: the request,
the response buffer, and whether `writeResponse()` has been called. -/
structure AsyncConnection where
  request : Request
  response : Response
  responseWritten : Bool
  deriving DecidableEq

/-- Observable steps of `FileRequestHandler::handleRequest`, in execution
order: running the wrapped synchronous handler, then signalling completion
by writing the response. -/
inductive ConnEvent where
  | handlerExecuted
  | responseWritten
  deriving DecidableEq

/-- `AsyncConnection::writeResponse()`: signals completion of the
asynchronous handler by writing the populated response. -/
def AsyncConnection.writeResponse (c : AsyncConnection) : AsyncConnection :=
  { c with responseWritten := true }

/-- `FileRequestHandler::handleRequest` (ServerMain.cpp lines 86-95): runs
`fileHandlerFunction(pConnection->request(), &(pConnection->response()))`
synchronously, then calls `pConnection->writeResponse()`.  The returned
event list records the two steps in order; there is no other step. -/
def FileRequestHandler.handleRequest (fileHandlerFunction : UriHandlerFunction)
    (c : AsyncConnection) : AsyncConnection × List ConnEvent :=
  let c1 : AsyncConnection := { c with response := fileHandlerFunction c.request c.response }
  (c1.writeResponse, [ConnEvent.handlerExecuted, ConnEvent.responseWritten])

/-- `boost::bind(FileRequestHandler::handleRequest, blockingFileHandler(), _1)`
(line 99-100): the async handler obtained by partially applying the functor
to a synchronous file handler.  The underlying `blockingFileHandler()`
(`gwt::fileHandlerFunction`, external to this file) is a parameter. -/
def asyncFileHandler (fileHandlerFunction : UriHandlerFunction) :
    AsyncConnection → AsyncConnection × List ConnEvent :=
  fun c => FileRequestHandler.handleRequest fileHandlerFunction c

/-- `secureAsyncFileHandler` (lines 82-106): the secured async handler is
`boost::bind(asyncFileHandler, _2)` — the resolved username (first
parameter) is dropped and only the connection (second parameter) is passed
on. -/
def secureAsyncFileHandler (fileHandlerFunction : UriHandlerFunction) :
    String → AsyncConnection → AsyncConnection × List ConnEvent :=
  fun _username c => asyncFileHandler fileHandlerFunction c

/-! ## Signal state machine (`waitForSignals`) -/

/-- Signal numbers, as on Linux. -/
def SIGINT : Nat := 2

def SIGQUIT : Nat := 3

def SIGTERM : Nat := 15

def SIGCHLD : Nat := 17

/-- State of the signal state machine after the mask is installed:
`Blocked` (sigwait loop active) or `Terminating` (termination signal seen,
mask cleared, signal re-raised). -/
inductive SigState where
  | Blocked
  | Terminating
  deriving DecidableEq

/-- Observable actions of one iteration of the sigwait loop body
(lines 209-254). -/
inductive SigAction where
  | notifySIGCHLD
  | clearSignalMask
  | restoreDefaultDisposition (sig : Nat)
  | reraiseSignal (sig : Nat)
  | logUnexpectedSignalWarning (sig : Nat)
  deriving DecidableEq

/-- The three standard termination signals tested at line 224. -/
def isTerminationSignal (sig : Nat) : Bool :=
  sig = SIGINT || sig = SIGQUIT || sig = SIGTERM

/-- One iteration of the `for(;;)` sigwait loop body (lines 209-254):
given the signal returned by `sigwait`, the actions performed and the
resulting state.  SIGCHLD notifies the session manager and stays blocked;
SIGINT/SIGQUIT/SIGTERM clear the mask, restore the default disposition and
re-raise the signal (failures of the first two cleanup calls are only
logged and do not change control flow); any other signal is logged as a
warning and the loop continues. -/
def sigwaitLoopBody (sig : Nat) : List SigAction × SigState :=
  if sig = SIGCHLD then
    ([SigAction.notifySIGCHLD], SigState.Blocked)
  else if isTerminationSignal sig then
    ([SigAction.clearSignalMask,
      SigAction.restoreDefaultDisposition sig,
      SigAction.reraiseSignal sig], SigState.Terminating)
  else
    ([SigAction.logUnexpectedSignalWarning sig], SigState.Blocked)

/-- The `waitForSignals` loop over a (finite prefix of the) stream of
signals returned by successive `sigwait` calls.  After a termination
signal the re-raised signal, now unblocked and at default disposition,
terminates the process, so no further signal is observed. -/
def waitForSignals : List Nat → List SigAction × SigState
  | [] => ([], SigState.Blocked)
  | sig :: rest =>
    match sigwaitLoopBody sig with
    | (acts, SigState.Terminating) => (acts, SigState.Terminating)
    | (acts, SigState.Blocked) =>
      let r := waitForSignals rest
      (acts ++ r.1, r.2)

/-! ## Lifecycle controller (`main`, lines 304-451) -/

/-- The privilege state of the process. `elevated` is whether the process
currently holds elevated (root) privilege; `canRegainElevated` is whether
any elevated privilege can still be re-acquired later in the process
lifetime. -/
structure PrivState where
  elevated : Bool
  canRegainElevated : Bool
  deriving DecidableEq

/-- Modelled from the spec: `core::system::temporarilyDropPriv` is called
at line 419 but its implementation is not part of this source file.  Per
the spec, the privilege-drop phase "permanently relinquish[es] elevated OS
privilege for the remaining process lifetime", so on success the resulting
state holds no elevated privilege and cannot regain it; on failure the
privilege state is unchanged and an error is returned.  The first argument
is the call's externally determined success or failure. -/
def temporarilyDropPriv (dropResult : Res) (p : PrivState) : Res × PrivState :=
  match dropResult with
  | Res.ok => (Res.ok, { elevated := false, canRegainElevated := false })
  | Res.err => (Res.err, p)

/-- The program options consumed by `main` (`server::options()`). -/
structure Options where
  statusExit : Bool
  statusExitCode : Nat
  serverDaemonize : Bool
  serverOffline : Bool
  serverAppArmorEnabled : Bool
  serverUser : String
  verifyInstallation : Bool
  wwwThreadPoolSize : Nat
  deriving DecidableEq

/-- Outcomes of the external collaborator calls made by `main`, in source
order.  Each field is the result the corresponding call would return if it
were reached.  (`ignoreSignal(SigPipe)` and the umask call are omitted:
their failures are logged only and affect no modelled state.) -/
structure World where
  daemonize : Res
  ignoreTerminalSignals : Res
  rEnvironmentDetected : Bool
  realUserIsRoot : Bool
  setResourceLimit : Res
  makeCurrentPath : Res
  secureCookieInit : Res
  sessionProxyInit : Res
  httpServerInit : Res
  addinsInit : Res
  authHandlerIsRegistered : Bool
  pamAuthInit : Res
  appArmorEnforce : Res
  dropPriv : Res
  verifySession : Res
  httpServerRun : Res
  deriving DecidableEq

/-- Observable bootstrap events of `main`, in the order the corresponding
calls appear in the source.  `cryptoInitialized` records the (void, never
failing) `crypto::initialize()` call at line 362; `pamAuthInitAttempted`
records that `pam_auth::initialize()` was invoked; `appArmorErrorLogged`
records the LOG_ERROR of a failed `app_armor::enforceRestricted()`. -/
inductive Event where
  | cryptoInitialized
  | secureCookieInitialized
  | sessionProxyInitialized
  | httpServerInitialized
  | handlersRegistered
  | offlineHandlersRegistered
  | addinsInitialized
  | pamAuthInitAttempted
  | appArmorEnforceAttempted
  | appArmorErrorLogged
  | privilegeDropAttempted
  | privilegeDropped
  | verifyInstallationRun
  | httpServerRunning
  deriving DecidableEq

/-- The observable outcome of `main`: the process exited with a code, or it
entered the (never returning) `waitForSignals` loop. -/
inductive Outcome where
  | exited (code : Nat)
  | waitingForSignals
  deriving DecidableEq

/-- Result of (a run of) `main`: outcome, trace of bootstrap events in
execution order, and final privilege state. -/
structure MainResult where
  outcome : Outcome
  trace : List Event
  priv : PrivState
  deriving DecidableEq

/-- Lines 424-437: verify-installation mode runs
`session_proxy::runVerifyInstallationSession()` and exits immediately with
its result (`EXIT_SUCCESS` on success, `exitFailure` on error); otherwise
the http server is run with the configured thread-pool size and, on
success, control passes to `waitForSignals`.  The trace holds only the
events this part generates. -/
def afterPrivilegePhase (opts : Options) (w : World) (p : PrivState) : MainResult :=
  if opts.verifyInstallation then
    if w.verifySession = Res.err then
      ⟨Outcome.exited EXIT_FAILURE, [Event.verifyInstallationRun], p⟩
    else
      ⟨Outcome.exited EXIT_SUCCESS, [Event.verifyInstallationRun], p⟩
  else if w.httpServerRun = Res.err then
    ⟨Outcome.exited EXIT_FAILURE, [], p⟩
  else
    ⟨Outcome.waitingForSignals, [Event.httpServerRunning], p⟩

/-- Lines 403-422: if AppArmor is enabled, `enforceRestricted()` is
attempted and a failure is logged (LOG_ERROR) but is not fatal; then, if a
run-as user is configured, privilege is dropped via
`temporarilyDropPriv` — a failed drop is fatal (`exitFailure`), a
successful one continues into `afterPrivilegePhase`. -/
def afterHandlersPhase (opts : Options) (w : World) (p : PrivState) : MainResult :=
  let armor : List Event :=
    if opts.serverAppArmorEnabled then
      if w.appArmorEnforce = Res.err then
        [Event.appArmorEnforceAttempted, Event.appArmorErrorLogged]
      else
        [Event.appArmorEnforceAttempted]
    else []
  if opts.serverUser ≠ "" then
    match temporarilyDropPriv w.dropPriv p with
    | (Res.err, p1) =>
      ⟨Outcome.exited EXIT_FAILURE, armor ++ [Event.privilegeDropAttempted], p1⟩
    | (Res.ok, p1) =>
      let r := afterPrivilegePhase opts w p1
      ⟨r.outcome, armor ++ [Event.privilegeDropAttempted, Event.privilegeDropped] ++ r.trace,
       r.priv⟩
  else
    let r := afterPrivilegePhase opts w p
    ⟨r.outcome, armor ++ r.trace, r.priv⟩

/-- Lines 379-401: in offline mode the reduced offline handler set is
registered and addin/PAM initialisation is skipped entirely; otherwise the
full handler set is registered, addins are initialised (failure fatal), and
PAM auth is initialised only when no auth handler is registered (failure
fatal). -/
def handlersPhase (opts : Options) (w : World) (p : PrivState) : MainResult :=
  if opts.serverOffline then
    let r := afterHandlersPhase opts w p
    ⟨r.outcome, Event.offlineHandlersRegistered :: r.trace, r.priv⟩
  else if w.addinsInit = Res.err then
    ⟨Outcome.exited EXIT_FAILURE, [Event.handlersRegistered], p⟩
  else if w.authHandlerIsRegistered then
    let r := afterHandlersPhase opts w p
    ⟨r.outcome, [Event.handlersRegistered, Event.addinsInitialized] ++ r.trace, r.priv⟩
  else if w.pamAuthInit = Res.err then
    ⟨Outcome.exited EXIT_FAILURE,
     [Event.handlersRegistered, Event.addinsInitialized, Event.pamAuthInitAttempted], p⟩
  else
    let r := afterHandlersPhase opts w p
    ⟨r.outcome,
     [Event.handlersRegistered, Event.addinsInitialized, Event.pamAuthInitAttempted] ++ r.trace,
     r.priv⟩

/-- `main` (lines 304-451), as a function of the options, the outcomes of
the external calls, and the initial privilege state.  Exit codes: a
requested option exit returns `statusExitCode`; every fatal bootstrap error
returns `EXIT_FAILURE` via `core::system::exitFailure`.  The trace records
the bootstrap events that executed, in order; note that
`crypto::initialize()` (line 362) is a void call with no failure path. -/
def main (opts : Options) (w : World) (p : PrivState) : MainResult :=
  if opts.statusExit then
    ⟨Outcome.exited opts.statusExitCode, [], p⟩
  else if opts.serverDaemonize ∧ w.daemonize = Res.err then
    ⟨Outcome.exited EXIT_FAILURE, [], p⟩
  else if opts.serverDaemonize ∧ w.ignoreTerminalSignals = Res.err then
    ⟨Outcome.exited EXIT_FAILURE, [], p⟩
  else if ¬ w.rEnvironmentDetected then
    ⟨Outcome.exited EXIT_FAILURE, [], p⟩
  else if w.realUserIsRoot ∧ w.setResourceLimit = Res.err then
    ⟨Outcome.exited EXIT_FAILURE, [], p⟩
  else if w.makeCurrentPath = Res.err then
    ⟨Outcome.exited EXIT_FAILURE, [], p⟩
  else if w.secureCookieInit = Res.err then
    ⟨Outcome.exited EXIT_FAILURE, [Event.cryptoInitialized], p⟩
  else if w.sessionProxyInit = Res.err then
    ⟨Outcome.exited EXIT_FAILURE,
     [Event.cryptoInitialized, Event.secureCookieInitialized], p⟩
  else if w.httpServerInit = Res.err then
    ⟨Outcome.exited EXIT_FAILURE,
     [Event.cryptoInitialized, Event.secureCookieInitialized,
      Event.sessionProxyInitialized], p⟩
  else
    let r := handlersPhase opts w p
    ⟨r.outcome,
     [Event.cryptoInitialized, Event.secureCookieInitialized,
      Event.sessionProxyInitialized, Event.httpServerInitialized] ++ r.trace,
     r.priv⟩

/-- A sample fully successful configuration used by the concrete witnesses:
not an option-exit, no daemonization, online mode, AppArmor off, a run-as
user configured, no verify-installation mode. -/
def baseOptions : Options :=
  { statusExit := false, statusExitCode := 0, serverDaemonize := false,
    serverOffline := false, serverAppArmorEnabled := false,
    serverUser := "rstudio-server", verifyInstallation := false,
    wwwThreadPoolSize := 2 }

/-- A sample world in which every external call succeeds, running as root
with no auth handler registered. -/
def okWorld : World :=
  { daemonize := Res.ok, ignoreTerminalSignals := Res.ok,
    rEnvironmentDetected := true, realUserIsRoot := true,
    setResourceLimit := Res.ok, makeCurrentPath := Res.ok,
    secureCookieInit := Res.ok, sessionProxyInit := Res.ok,
    httpServerInit := Res.ok, addinsInit := Res.ok,
    authHandlerIsRegistered := false, pamAuthInit := Res.ok,
    appArmorEnforce := Res.ok, dropPriv := Res.ok,
    verifySession := Res.ok, httpServerRun := Res.ok }

/-- The privilege state of a process started as root. -/
def rootPriv : PrivState := { elevated := true, canRegainElevated := true }

end ServerMain

namespace ServerMain

/-! ## Theorems: handler adaptation and signal machine -/

/-- C5: the blocking-to-async adapter, applied to any synchronous handler
and invoked with any connection, synchronously executes the wrapped handler
on the connection's request and response to populate the response, then
immediately signals completion (writes the response); the observable steps
are exactly handler execution followed by response writing, with no
suspension point between them. -/
theorem asyncFileHandler_sync_then_complete (f : UriHandlerFunction) (c : AsyncConnection) :
    asyncFileHandler f c =
      ({ request := c.request, response := f c.request c.response, responseWritten := true },
       [ConnEvent.handlerExecuted, ConnEvent.responseWritten]) := rfl

/-- C10: the secured asynchronous file handler discards the resolved
username before the underlying blocking file handler runs, so for any two
caller identities and any connection the produced response (and the whole
observable behaviour) is identical. -/
theorem secureAsyncFileHandler_identity_independent (f : UriHandlerFunction)
    (u1 u2 : String) (c : AsyncConnection) :
    secureAsyncFileHandler f u1 c = secureAsyncFileHandler f u2 c := rfl

/-- C3: in the Blocked state, any of SIGINT, SIGQUIT, SIGTERM causes the
transition to Terminating: the signal mask is cleared, that signal's
disposition is restored to default, and the same signal is re-delivered to
the process; the transition is terminal — whatever signals would follow,
the loop never observes them and never returns to Blocked. -/
theorem waitForSignals_termination_terminal (sig : Nat) (rest : List Nat)
    (h : isTerminationSignal sig = true) :
    waitForSignals (sig :: rest) =
      ([SigAction.clearSignalMask, SigAction.restoreDefaultDisposition sig,
        SigAction.reraiseSignal sig], SigState.Terminating) := by
  have hne : ¬ (sig = SIGCHLD) := by
    simp only [isTerminationSignal, SIGINT, SIGQUIT, SIGTERM, Bool.or_eq_true,
      decide_eq_true_eq] at h
    rcases h with (h | h) | h <;> simp [h, SIGCHLD]
  simp [waitForSignals, sigwaitLoopBody, hne, h]

theorem waitForSignals_termination_terminal_witness :
    waitForSignals (SIGTERM :: [SIGCHLD, SIGCHLD]) =
      ([SigAction.clearSignalMask, SigAction.restoreDefaultDisposition SIGTERM,
        SigAction.reraiseSignal SIGTERM], SigState.Terminating) :=
  waitForSignals_termination_terminal SIGTERM [SIGCHLD, SIGCHLD] (by decide)

/-- C4: if no termination signal is delivered, every observed SIGCHLD
leads to exactly one session-manager notification — the number of
`notifySIGCHLD` actions equals the number of SIGCHLD observations — and the
state machine remains Blocked, waiting again. -/
theorem waitForSignals_sigchld_notify_count (sigs : List Nat)
    (h : ∀ s ∈ sigs, isTerminationSignal s = false) :
    (waitForSignals sigs).1.count SigAction.notifySIGCHLD = sigs.count SIGCHLD ∧
    (waitForSignals sigs).2 = SigState.Blocked := by
  induction sigs with
  | nil => simp [waitForSignals]
  | cons s rest ih =>
    have hs : isTerminationSignal s = false := h s (by simp)
    obtain ⟨ih1, ih2⟩ := ih (fun x hx => h x (by simp [hx]))
    by_cases hc : s = SIGCHLD
    · subst hc
      simp [waitForSignals, sigwaitLoopBody, hs, ih1, ih2, List.count_cons]
    · simp [waitForSignals, sigwaitLoopBody, hs, hc, ih1, ih2, List.count_cons]

theorem waitForSignals_sigchld_notify_count_witness :
    (waitForSignals [SIGCHLD, 10, SIGCHLD]).1.count SigAction.notifySIGCHLD =
      [SIGCHLD, 10, SIGCHLD].count SIGCHLD ∧
    (waitForSignals [SIGCHLD, 10, SIGCHLD]).2 = SigState.Blocked :=
  waitForSignals_sigchld_notify_count [SIGCHLD, 10, SIGCHLD] (by decide)

/-- C9: any signal returned by the wait that is neither SIGCHLD nor a
termination signal is logged as a warning, the machine remains Blocked, and
the loop simply continues with the remaining signals — it never exits on
such a signal. -/
theorem waitForSignals_unexpected_signal_continues (sig : Nat) (rest : List Nat)
    (h1 : sig ≠ SIGCHLD) (h2 : isTerminationSignal sig = false) :
    waitForSignals (sig :: rest) =
      (SigAction.logUnexpectedSignalWarning sig :: (waitForSignals rest).1,
       (waitForSignals rest).2) := by
  simp [waitForSignals, sigwaitLoopBody, h1, h2]

theorem waitForSignals_unexpected_signal_continues_witness :
    waitForSignals (1 :: [SIGCHLD]) =
      (SigAction.logUnexpectedSignalWarning 1 :: (waitForSignals [SIGCHLD]).1,
       (waitForSignals [SIGCHLD]).2) :=
  waitForSignals_unexpected_signal_continues 1 [SIGCHLD] (by decide) (by decide)

/-! ## Helper lemmas about the bootstrap phases -/

lemma afterPrivilegePhase_priv (opts : Options) (w : World) (p : PrivState) :
    (afterPrivilegePhase opts w p).priv = p := by
  by_cases h1 : opts.verifyInstallation <;> by_cases h2 : w.verifySession = Res.err <;>
    by_cases h3 : w.httpServerRun = Res.err <;>
    simp [afterPrivilegePhase, h1, h2, h3]

lemma pam_not_mem_afterPrivilegePhase (opts : Options) (w : World) (p : PrivState) :
    Event.pamAuthInitAttempted ∉ (afterPrivilegePhase opts w p).trace := by
  by_cases h1 : opts.verifyInstallation <;> by_cases h2 : w.verifySession = Res.err <;>
    by_cases h3 : w.httpServerRun = Res.err <;>
    simp [afterPrivilegePhase, h1, h2, h3]

lemma pam_not_mem_afterHandlersPhase (opts : Options) (w : World) (p : PrivState) :
    Event.pamAuthInitAttempted ∉ (afterHandlersPhase opts w p).trace := by
  have hp1 := pam_not_mem_afterPrivilegePhase opts w p
  have hp2 := pam_not_mem_afterPrivilegePhase opts w ⟨false, false⟩
  by_cases h1 : opts.serverAppArmorEnabled <;> by_cases h2 : w.appArmorEnforce = Res.err <;>
    by_cases h3 : opts.serverUser = "" <;> cases h4 : w.dropPriv <;>
    simp [afterHandlersPhase, temporarilyDropPriv, h1, h2, h3, h4, hp1, hp2]

lemma afterPrivilegePhase_verify_trace (opts : Options) (w : World) (p : PrivState)
    (hver : opts.verifyInstallation = true) :
    (afterPrivilegePhase opts w p).trace = [Event.verifyInstallationRun] := by
  by_cases hv : w.verifySession = Res.err <;> simp [afterPrivilegePhase, hver, hv]

lemma afterHandlersPhase_verify_trace (opts : Options) (w : World) (p : PrivState)
    (hver : opts.verifyInstallation = true) (h3 : opts.serverUser ≠ "")
    (hd : w.dropPriv = Res.ok) :
    ∃ a : List Event,
      (afterHandlersPhase opts w p).trace =
        a ++ [Event.privilegeDropAttempted, Event.privilegeDropped,
              Event.verifyInstallationRun] ∧
      Event.httpServerRunning ∉ a ∧ Event.privilegeDropped ∉ a := by
  have ht := afterPrivilegePhase_verify_trace opts w ⟨false, false⟩ hver
  by_cases h1 : opts.serverAppArmorEnabled <;> by_cases h2 : w.appArmorEnforce = Res.err
  · exact ⟨[Event.appArmorEnforceAttempted, Event.appArmorErrorLogged],
      by simp [afterHandlersPhase, temporarilyDropPriv, h1, h2, h3, hd, ht],
      by simp, by simp⟩
  · exact ⟨[Event.appArmorEnforceAttempted],
      by simp [afterHandlersPhase, temporarilyDropPriv, h1, h2, h3, hd, ht],
      by simp, by simp⟩
  · exact ⟨[],
      by simp [afterHandlersPhase, temporarilyDropPriv, h1, h2, h3, hd, ht],
      by simp, by simp⟩
  · exact ⟨[],
      by simp [afterHandlersPhase, temporarilyDropPriv, h1, h2, h3, hd, ht],
      by simp, by simp⟩

lemma afterHandlersPhase_dropOk (opts : Options) (w : World) (p : PrivState)
    (h3 : opts.serverUser ≠ "") (hd : w.dropPriv = Res.ok) :
    (afterHandlersPhase opts w p).outcome =
      (afterPrivilegePhase opts w ⟨false, false⟩).outcome ∧
    (afterHandlersPhase opts w p).priv =
      (afterPrivilegePhase opts w ⟨false, false⟩).priv := by
  by_cases h1 : opts.serverAppArmorEnabled <;> by_cases h2 : w.appArmorEnforce = Res.err <;>
    simp [afterHandlersPhase, temporarilyDropPriv, h1, h2, h3, hd]

lemma afterHandlersPhase_dropErr (opts : Options) (w : World) (p : PrivState)
    (h3 : opts.serverUser ≠ "") (hd : w.dropPriv = Res.err) :
    (afterHandlersPhase opts w p).outcome = Outcome.exited EXIT_FAILURE := by
  by_cases h1 : opts.serverAppArmorEnabled <;> by_cases h2 : w.appArmorEnforce = Res.err <;>
    simp [afterHandlersPhase, temporarilyDropPriv, h1, h2, h3, hd]

lemma afterHandlersPhase_armorLogged_mem (opts : Options) (w : World) (p : PrivState)
    (h1 : opts.serverAppArmorEnabled = true) (h2 : w.appArmorEnforce = Res.err) :
    Event.appArmorErrorLogged ∈ (afterHandlersPhase opts w p).trace := by
  by_cases h3 : opts.serverUser = "" <;> cases hd : w.dropPriv <;>
    simp [afterHandlersPhase, temporarilyDropPriv, h1, h2, h3, hd]

lemma afterHandlersPhase_dropAttempted_mem (opts : Options) (w : World) (p : PrivState)
    (h3 : opts.serverUser ≠ "") :
    Event.privilegeDropAttempted ∈ (afterHandlersPhase opts w p).trace := by
  by_cases h1 : opts.serverAppArmorEnabled <;> by_cases h2 : w.appArmorEnforce = Res.err <;>
    cases hd : w.dropPriv <;>
    simp [afterHandlersPhase, temporarilyDropPriv, h1, h2, h3, hd]

lemma afterHandlersPhase_noUser (opts : Options) (w : World) (p : PrivState)
    (hu : opts.serverUser = "") :
    (afterHandlersPhase opts w p).outcome = (afterPrivilegePhase opts w p).outcome ∧
    (afterHandlersPhase opts w p).priv = (afterPrivilegePhase opts w p).priv ∧
    ∃ a : List Event,
      (afterHandlersPhase opts w p).trace = a ++ (afterPrivilegePhase opts w p).trace ∧
      Event.httpServerRunning ∉ a := by
  by_cases h1 : opts.serverAppArmorEnabled <;> by_cases h2 : w.appArmorEnforce = Res.err
  · exact ⟨by simp [afterHandlersPhase, hu, h1, h2],
      by simp [afterHandlersPhase, hu, h1, h2],
      ⟨[Event.appArmorEnforceAttempted, Event.appArmorErrorLogged],
       by simp [afterHandlersPhase, hu, h1, h2], by simp⟩⟩
  · exact ⟨by simp [afterHandlersPhase, hu, h1, h2],
      by simp [afterHandlersPhase, hu, h1, h2],
      ⟨[Event.appArmorEnforceAttempted],
       by simp [afterHandlersPhase, hu, h1, h2], by simp⟩⟩
  · exact ⟨by simp [afterHandlersPhase, hu, h1, h2],
      by simp [afterHandlersPhase, hu, h1, h2],
      ⟨[], by simp [afterHandlersPhase, hu, h1, h2], by simp⟩⟩
  · exact ⟨by simp [afterHandlersPhase, hu, h1, h2],
      by simp [afterHandlersPhase, hu, h1, h2],
      ⟨[], by simp [afterHandlersPhase, hu, h1, h2], by simp⟩⟩


/-- With every step up to (and including) the handlers phase succeeding,
`main` reaches the AppArmor / privilege-drop / run part: its outcome and
final privilege state are those of `afterHandlersPhase`, and its trace is
that of `afterHandlersPhase` prefixed by the earlier bootstrap events. -/
lemma main_trace_split (opts : Options) (w : World) (p : PrivState)
    (h1 : opts.statusExit = false) (h2 : w.daemonize = Res.ok)
    (h3 : w.ignoreTerminalSignals = Res.ok) (h4 : w.rEnvironmentDetected = true)
    (h5 : w.setResourceLimit = Res.ok) (h6 : w.makeCurrentPath = Res.ok)
    (h7 : w.secureCookieInit = Res.ok) (h8 : w.sessionProxyInit = Res.ok)
    (h9 : w.httpServerInit = Res.ok) (h10 : w.addinsInit = Res.ok)
    (h11 : w.pamAuthInit = Res.ok) :
    ∃ pre : List Event,
      (main opts w p).outcome = (afterHandlersPhase opts w p).outcome ∧
      (main opts w p).trace = pre ++ (afterHandlersPhase opts w p).trace ∧
      (main opts w p).priv = (afterHandlersPhase opts w p).priv ∧
      ∀ e ∈ pre,
        e = Event.cryptoInitialized ∨ e = Event.secureCookieInitialized ∨
        e = Event.sessionProxyInitialized ∨ e = Event.httpServerInitialized ∨
        e = Event.handlersRegistered ∨ e = Event.offlineHandlersRegistered ∨
        e = Event.addinsInitialized ∨ e = Event.pamAuthInitAttempted := by
  by_cases ho : opts.serverOffline <;> by_cases hr : w.authHandlerIsRegistered
  · exact ⟨[Event.cryptoInitialized, Event.secureCookieInitialized,
      Event.sessionProxyInitialized, Event.httpServerInitialized,
      Event.offlineHandlersRegistered],
      by simp [main, handlersPhase, h1, h2, h3, h4, h5, h6, h7, h8, h9, ho],
      by simp [main, handlersPhase, h1, h2, h3, h4, h5, h6, h7, h8, h9, ho],
      by simp [main, handlersPhase, h1, h2, h3, h4, h5, h6, h7, h8, h9, ho],
      by decide⟩
  · exact ⟨[Event.cryptoInitialized, Event.secureCookieInitialized,
      Event.sessionProxyInitialized, Event.httpServerInitialized,
      Event.offlineHandlersRegistered],
      by simp [main, handlersPhase, h1, h2, h3, h4, h5, h6, h7, h8, h9, ho],
      by simp [main, handlersPhase, h1, h2, h3, h4, h5, h6, h7, h8, h9, ho],
      by simp [main, handlersPhase, h1, h2, h3, h4, h5, h6, h7, h8, h9, ho],
      by decide⟩
  · exact ⟨[Event.cryptoInitialized, Event.secureCookieInitialized,
      Event.sessionProxyInitialized, Event.httpServerInitialized,
      Event.handlersRegistered, Event.addinsInitialized],
      by simp [main, handlersPhase, h1, h2, h3, h4, h5, h6, h7, h8, h9, h10, ho, hr],
      by simp [main, handlersPhase, h1, h2, h3, h4, h5, h6, h7, h8, h9, h10, ho, hr],
      by simp [main, handlersPhase, h1, h2, h3, h4, h5, h6, h7, h8, h9, h10, ho, hr],
      by decide⟩
  · exact ⟨[Event.cryptoInitialized, Event.secureCookieInitialized,
      Event.sessionProxyInitialized, Event.httpServerInitialized,
      Event.handlersRegistered, Event.addinsInitialized, Event.pamAuthInitAttempted],
      by simp [main, handlersPhase, h1, h2, h3, h4, h5, h6, h7, h8, h9, h10, h11, ho, hr],
      by simp [main, handlersPhase, h1, h2, h3, h4, h5, h6, h7, h8, h9, h10, h11, ho, hr],
      by simp [main, handlersPhase, h1, h2, h3, h4, h5, h6, h7, h8, h9, h10, h11, ho, hr],
      by decide⟩


/-! ## Theorems: lifecycle controller -/

/-- C2: if initialisation of the cryptographic subsystem fails — in the
source the fallible steps of that phase are the secure-cookie and
session-proxy initialisations (`crypto::initialize()` at line 362 is a
void call with no failure path) — the process exits with `EXIT_FAILURE`
at that phase boundary: neither the normal nor the offline handler
registration is ever reached. -/
theorem cryptoPhaseFailure_fatal_before_handlers (opts : Options) (w : World) (p : PrivState)
    (h1 : opts.statusExit = false) (h2 : w.daemonize = Res.ok)
    (h3 : w.ignoreTerminalSignals = Res.ok) (h4 : w.rEnvironmentDetected = true)
    (h5 : w.setResourceLimit = Res.ok) (h6 : w.makeCurrentPath = Res.ok)
    (hfail : w.secureCookieInit = Res.err ∨ w.sessionProxyInit = Res.err) :
    (main opts w p).outcome = Outcome.exited EXIT_FAILURE ∧
    Event.handlersRegistered ∉ (main opts w p).trace ∧
    Event.offlineHandlersRegistered ∉ (main opts w p).trace := by
  cases hc : w.secureCookieInit
  · rcases hfail with hf | hf
    · rw [hc] at hf; exact absurd hf (by decide)
    · simp [main, h1, h2, h3, h4, h5, h6, hc, hf]
  · simp [main, h1, h2, h3, h4, h5, h6, hc]

theorem cryptoPhaseFailure_fatal_before_handlers_witness :
    (main baseOptions { okWorld with secureCookieInit := Res.err } rootPriv).outcome =
      Outcome.exited EXIT_FAILURE ∧
    Event.handlersRegistered ∉
      (main baseOptions { okWorld with secureCookieInit := Res.err } rootPriv).trace ∧
    Event.offlineHandlersRegistered ∉
      (main baseOptions { okWorld with secureCookieInit := Res.err } rootPriv).trace :=
  cryptoPhaseFailure_fatal_before_handlers baseOptions
    { okWorld with secureCookieInit := Res.err } rootPriv
    rfl rfl rfl rfl rfl rfl (Or.inl rfl)

/-- C6: in non-offline mode, once handler registration and addin
initialisation have succeeded, the fallback PAM authenticator initialiser
is invoked if and only if no authentication provider has already
registered itself; with a registered provider it is never invoked. -/
theorem pamFallback_iff_no_auth_provider (opts : Options) (w : World) (p : PrivState)
    (h1 : opts.statusExit = false) (h2 : w.daemonize = Res.ok)
    (h3 : w.ignoreTerminalSignals = Res.ok) (h4 : w.rEnvironmentDetected = true)
    (h5 : w.setResourceLimit = Res.ok) (h6 : w.makeCurrentPath = Res.ok)
    (h7 : w.secureCookieInit = Res.ok) (h8 : w.sessionProxyInit = Res.ok)
    (h9 : w.httpServerInit = Res.ok) (hoff : opts.serverOffline = false)
    (h10 : w.addinsInit = Res.ok) :
    Event.pamAuthInitAttempted ∈ (main opts w p).trace ↔
      w.authHandlerIsRegistered = false := by
  have hnm := pam_not_mem_afterHandlersPhase opts w p
  cases hr : w.authHandlerIsRegistered
  · cases hpam : w.pamAuthInit <;>
      simp [main, handlersPhase, h1, h2, h3, h4, h5, h6, h7, h8, h9, hoff, h10, hr, hpam]
  · simp [main, handlersPhase, h1, h2, h3, h4, h5, h6, h7, h8, h9, hoff, h10, hr, hnm]

theorem pamFallback_iff_no_auth_provider_witness :
    Event.pamAuthInitAttempted ∈ (main baseOptions okWorld rootPriv).trace ↔
      okWorld.authHandlerIsRegistered = false :=
  pamFallback_iff_no_auth_provider baseOptions okWorld rootPriv
    rfl rfl rfl rfl rfl rfl rfl rfl rfl rfl rfl

/-- C7: with AppArmor enabled and `enforceRestricted()` failing, the
failure is logged (the error-logged event is in the trace) but bootstrap
continues to the privilege-drop phase (the drop is still attempted),
whereas a failure of the privilege drop itself always exits the process
with `EXIT_FAILURE`. -/
theorem appArmorFailure_nonfatal_privDropFailure_fatal (opts : Options) (w : World)
    (p : PrivState)
    (h1 : opts.statusExit = false) (h2 : w.daemonize = Res.ok)
    (h3 : w.ignoreTerminalSignals = Res.ok) (h4 : w.rEnvironmentDetected = true)
    (h5 : w.setResourceLimit = Res.ok) (h6 : w.makeCurrentPath = Res.ok)
    (h7 : w.secureCookieInit = Res.ok) (h8 : w.sessionProxyInit = Res.ok)
    (h9 : w.httpServerInit = Res.ok) (h10 : w.addinsInit = Res.ok)
    (h11 : w.pamAuthInit = Res.ok)
    (haa : opts.serverAppArmorEnabled = true) (haerr : w.appArmorEnforce = Res.err)
    (huser : opts.serverUser ≠ "") :
    Event.appArmorErrorLogged ∈ (main opts w p).trace ∧
    Event.privilegeDropAttempted ∈ (main opts w p).trace ∧
    (w.dropPriv = Res.err → (main opts w p).outcome = Outcome.exited EXIT_FAILURE) := by
  obtain ⟨pre, hout, htr, hpriv, hpre⟩ :=
    main_trace_split opts w p h1 h2 h3 h4 h5 h6 h7 h8 h9 h10 h11
  refine ⟨?_, ?_, ?_⟩
  · rw [htr]
    exact List.mem_append_right _ (afterHandlersPhase_armorLogged_mem opts w p haa haerr)
  · rw [htr]
    exact List.mem_append_right _ (afterHandlersPhase_dropAttempted_mem opts w p huser)
  · intro hd
    rw [hout]
    exact afterHandlersPhase_dropErr opts w p huser hd

theorem appArmorFailure_nonfatal_privDropFailure_fatal_witness :
    Event.appArmorErrorLogged ∈
      (main { baseOptions with serverAppArmorEnabled := true }
        { okWorld with appArmorEnforce := Res.err, dropPriv := Res.err } rootPriv).trace ∧
    Event.privilegeDropAttempted ∈
      (main { baseOptions with serverAppArmorEnabled := true }
        { okWorld with appArmorEnforce := Res.err, dropPriv := Res.err } rootPriv).trace ∧
    (({ okWorld with appArmorEnforce := Res.err, dropPriv := Res.err } : World).dropPriv =
         Res.err →
       (main { baseOptions with serverAppArmorEnabled := true }
        { okWorld with appArmorEnforce := Res.err, dropPriv := Res.err } rootPriv).outcome =
         Outcome.exited EXIT_FAILURE) :=
  appArmorFailure_nonfatal_privDropFailure_fatal
    { baseOptions with serverAppArmorEnabled := true }
    { okWorld with appArmorEnforce := Res.err, dropPriv := Res.err } rootPriv
    rfl rfl rfl rfl rfl rfl rfl rfl rfl rfl rfl rfl rfl (by decide)

/-- C1: with an unprivileged run-as user configured and the bootstrap
reaching the privilege-drop phase, either the drop fails and the process
exits with `EXIT_FAILURE` (it never continues running privileged), or it
succeeds and the final privilege state holds no elevated privilege and —
per the spec's contract for the externally implemented drop — cannot
regain it for the remainder of the process lifetime. -/
theorem privilegeDrop_permanent_or_fatal (opts : Options) (w : World) (p : PrivState)
    (h1 : opts.statusExit = false) (h2 : w.daemonize = Res.ok)
    (h3 : w.ignoreTerminalSignals = Res.ok) (h4 : w.rEnvironmentDetected = true)
    (h5 : w.setResourceLimit = Res.ok) (h6 : w.makeCurrentPath = Res.ok)
    (h7 : w.secureCookieInit = Res.ok) (h8 : w.sessionProxyInit = Res.ok)
    (h9 : w.httpServerInit = Res.ok) (h10 : w.addinsInit = Res.ok)
    (h11 : w.pamAuthInit = Res.ok)
    (huser : opts.serverUser ≠ "") :
    (w.dropPriv = Res.err → (main opts w p).outcome = Outcome.exited EXIT_FAILURE) ∧
    (w.dropPriv = Res.ok →
      (main opts w p).priv.elevated = false ∧
      (main opts w p).priv.canRegainElevated = false) := by
  obtain ⟨pre, hout, htr, hpriv, hpre⟩ :=
    main_trace_split opts w p h1 h2 h3 h4 h5 h6 h7 h8 h9 h10 h11
  constructor
  · intro hd
    rw [hout]
    exact afterHandlersPhase_dropErr opts w p huser hd
  · intro hd
    rw [hpriv, (afterHandlersPhase_dropOk opts w p huser hd).2, afterPrivilegePhase_priv]
    exact ⟨rfl, rfl⟩

theorem privilegeDrop_permanent_or_fatal_witness :
    ((main baseOptions okWorld rootPriv).priv.elevated = false ∧
     (main baseOptions okWorld rootPriv).priv.canRegainElevated = false) ∧
    (main baseOptions { okWorld with dropPriv := Res.err } rootPriv).outcome =
      Outcome.exited EXIT_FAILURE :=
  ⟨(privilegeDrop_permanent_or_fatal baseOptions okWorld rootPriv
      rfl rfl rfl rfl rfl rfl rfl rfl rfl rfl rfl (by decide)).2 rfl,
   (privilegeDrop_permanent_or_fatal baseOptions { okWorld with dropPriv := Res.err }
      rootPriv rfl rfl rfl rfl rfl rfl rfl rfl rfl rfl rfl (by decide)).1 rfl⟩

/-- C8: in verify-installation mode (with the bootstrap reaching the
Running phase, the privilege drop succeeding whenever a run-as user is
configured), the process runs the verification session and exits
immediately with its result — `EXIT_SUCCESS` on success, `EXIT_FAILURE` on
failure; the http server's `run()` never starts; and when a run-as user is
configured the verification run is the final bootstrap event, strictly
after the privilege drop. -/
theorem verifyInstallation_one_shot (opts : Options) (w : World) (p : PrivState)
    (h1 : opts.statusExit = false) (h2 : w.daemonize = Res.ok)
    (h3 : w.ignoreTerminalSignals = Res.ok) (h4 : w.rEnvironmentDetected = true)
    (h5 : w.setResourceLimit = Res.ok) (h6 : w.makeCurrentPath = Res.ok)
    (h7 : w.secureCookieInit = Res.ok) (h8 : w.sessionProxyInit = Res.ok)
    (h9 : w.httpServerInit = Res.ok) (h10 : w.addinsInit = Res.ok)
    (h11 : w.pamAuthInit = Res.ok)
    (hver : opts.verifyInstallation = true)
    (hd : opts.serverUser ≠ "" → w.dropPriv = Res.ok) :
    (w.verifySession = Res.ok → (main opts w p).outcome = Outcome.exited EXIT_SUCCESS) ∧
    (w.verifySession = Res.err → (main opts w p).outcome = Outcome.exited EXIT_FAILURE) ∧
    Event.httpServerRunning ∉ (main opts w p).trace ∧
    (opts.serverUser ≠ "" →
      ∃ pre2 : List Event,
        (main opts w p).trace = pre2 ++ [Event.verifyInstallationRun] ∧
        Event.privilegeDropped ∈ pre2) := by
  obtain ⟨pre, hout, htr, hpriv, hpre⟩ :=
    main_trace_split opts w p h1 h2 h3 h4 h5 h6 h7 h8 h9 h10 h11
  by_cases hu : opts.serverUser = ""
  · obtain ⟨ho1, hp1, a, ha, hrun⟩ := afterHandlersPhase_noUser opts w p hu
    have hvr := afterPrivilegePhase_verify_trace opts w p hver
    refine ⟨?_, ?_, ?_, ?_⟩
    · intro hv; rw [hout, ho1]; simp [afterPrivilegePhase, hver, hv]
    · intro hv; rw [hout, ho1]; simp [afterPrivilegePhase, hver, hv]
    · rw [htr, ha, hvr]
      intro hmem
      rcases List.mem_append.mp hmem with hmem | hmem
      · rcases hpre _ hmem with h | h | h | h | h | h | h | h <;> exact absurd h (by decide)
      · rcases List.mem_append.mp hmem with hmem | hmem
        · exact hrun hmem
        · simp at hmem
    · intro hu2; exact absurd hu hu2
  · have hdok := hd hu
    obtain ⟨a, ha, hrun, hdropped⟩ := afterHandlersPhase_verify_trace opts w p hver hu hdok
    have houtcome := (afterHandlersPhase_dropOk opts w p hu hdok).1
    refine ⟨?_, ?_, ?_, ?_⟩
    · intro hv; rw [hout, houtcome]; simp [afterPrivilegePhase, hver, hv]
    · intro hv; rw [hout, houtcome]; simp [afterPrivilegePhase, hver, hv]
    · rw [htr, ha]
      intro hmem
      rcases List.mem_append.mp hmem with hmem | hmem
      · rcases hpre _ hmem with h | h | h | h | h | h | h | h <;> exact absurd h (by decide)
      · rcases List.mem_append.mp hmem with hmem | hmem
        · exact hrun hmem
        · simp at hmem
    · intro _
      refine ⟨pre ++ (a ++ [Event.privilegeDropAttempted, Event.privilegeDropped]), ?_, ?_⟩
      · rw [htr, ha]; simp
      · simp

theorem verifyInstallation_one_shot_witness :
    (({ okWorld with verifySession := Res.ok } : World).verifySession = Res.ok →
      (main { baseOptions with verifyInstallation := true }
        { okWorld with verifySession := Res.ok } rootPriv).outcome =
        Outcome.exited EXIT_SUCCESS) ∧
    (({ okWorld with verifySession := Res.ok } : World).verifySession = Res.err →
      (main { baseOptions with verifyInstallation := true }
        { okWorld with verifySession := Res.ok } rootPriv).outcome =
        Outcome.exited EXIT_FAILURE) ∧
    Event.httpServerRunning ∉
      (main { baseOptions with verifyInstallation := true }
        { okWorld with verifySession := Res.ok } rootPriv).trace ∧
    (({ baseOptions with verifyInstallation := true } : Options).serverUser ≠ "" →
      ∃ pre2 : List Event,
        (main { baseOptions with verifyInstallation := true }
          { okWorld with verifySession := Res.ok } rootPriv).trace =
          pre2 ++ [Event.verifyInstallationRun] ∧
        Event.privilegeDropped ∈ pre2) :=
  verifyInstallation_one_shot { baseOptions with verifyInstallation := true }
    { okWorld with verifySession := Res.ok } rootPriv
    rfl rfl rfl rfl rfl rfl rfl rfl rfl rfl rfl rfl (fun _ => rfl)
end ServerMain
